import Mathlib

/-!
Verification development for the eNet gateway client library
(crates `enet-proto` and `enet-client`).

The definitions below are shallow embeddings of the Rust source:
byte buffers become `List Nat` (each element a byte value, machine
`u8` arithmetic is taken modulo 256 where the source can overflow),
fallible operations return `Option` or `Except`, and the two actor
tasks become explicit state-transition functions.  Strings that the
source compares byte-wise are embedded as `List Nat` of their byte
values; strings compared as whole words stay Lean `String`s.
-/

namespace Enet

/-! ## Framing codec (`crates/proto/src/enc/decoder.rs`, `encoder.rs`)

`DELIMETER` is the literal four-byte frame separator `\x0D \x0A \x0D \x0A`.
-/

/-- The four delimiter bytes, CR LF CR LF (`const DELIMETER: &str`). -/
def delim : List Nat := [13, 10, 13, 10]

/-- `delim` reversed, as consumed by the decoder's suffix loop. -/
def delimRev : List Nat := [10, 13, 10, 13]

/-- Does the delimiter occur in `buf` starting exactly at position `i`? -/
def isDelimAt (buf : List Nat) (i : Nat) : Bool :=
  decide ((buf.drop i).take 4 = delim)

/-- `DELIMETER_REGEX.find_at(buf, start)`: the leftmost occurrence of the
delimiter that begins at or after `start` (the regex engine never reports
a match beginning before the search offset). -/
def findDelimFrom (buf : List Nat) (start : Nat) : Option Nat :=
  (List.range buf.length).find? (fun j => decide (start ≤ j) && isDelimAt buf j)

/-- The decoder's rewind loop when no delimiter was found:

    let mut end_chars_matching = 0usize;
    let mut end_iter = buf.iter().rev();
    let mut pat_iter = DELIMETER.as_bytes().iter().rev();
    while end_iter.next() == pat_iter.next() && end_chars_matching < DELIMETER.len() - 1
      end_chars_matching += 1;

It counts how many trailing bytes of `buf` agree with the trailing bytes
of the delimiter, capped at 3.  The first argument is `buf` reversed, the
second is the delimiter reversed. -/
def suffixLoop : List Nat → List Nat → Nat → Nat
  | a :: as_, p :: ps, c => if a = p ∧ c < 3 then suffixLoop as_ ps (c + 1) else c
  | _, _, c => c

/-- `end_chars_matching` computed by `EnetDecoder::decode` for `buf`. -/
def endCharsMatching (buf : List Nat) : Nat :=
  suffixLoop buf.reverse delimRev 0

/-- Result of one `EnetDecoder::decode` call at the framing layer:
the extracted chunk (the bytes of one frame, delimiter stripped, still to
be JSON-parsed), the remaining buffer, and the stored `next_index`. -/
structure DecodeResult where
  frame : Option (List Nat)
  buf : List Nat
  nextIndex : Nat
  deriving Repr, DecidableEq

/-- `EnetDecoder::decode` (framing layer).  `st` is the stored
`next_index`; `buf` the accumulated bytes.  On a delimiter match ending at
`e`, the buffer is split at `e`, the chunk loses the four delimiter bytes,
and `next_index` resets to 0.  On no match, `next_index` becomes
`buf.len() - end_chars_matching`. -/
def decodeRaw (st : Nat) (buf : List Nat) : DecodeResult :=
  match findDelimFrom buf st with
  | none => ⟨none, buf, buf.length - endCharsMatching buf⟩
  | some j => ⟨some (buf.take j), buf.drop (j + 4), 0⟩

/-- `EnetEncoder::encode`: append the JSON serialization of the envelope
(abstracted here to its byte list `json`) and the delimiter to `buf`. -/
def encode (json : List Nat) (buf : List Nat) : List Nat :=
  buf ++ json ++ delim

/-! ## Brightness parsing (`crates/client/src/dev.rs`, `FromStr for DeviceBrightness`)

The accumulator in the source is a `u8`; `v *= 10` and `v += b - b'0'`
wrap modulo 256 when overflow checks are disabled (and panic in debug
builds).  The embedding keeps the wrapping semantics explicitly. -/

/-- The digit-accumulation loop of `DeviceBrightness::from_str` over the
byte values of the input.  Returns `none` on the first non-digit byte. -/
def brightnessLoop : Nat → List Nat → Option Nat
  | v, [] => some v
  | v, b :: rest =>
    if 48 ≤ b ∧ b ≤ 57 then brightnessLoop ((v * 10 % 256 + (b - 48)) % 256) rest
    else none

/-- `DeviceBrightness::new(value)`: accepted exactly when `value ≤ 100`. -/
def deviceBrightnessNew (v : Nat) : Option Nat :=
  if v ≤ 100 then some v else none

/-- `DeviceBrightness::from_str` on the byte values of the input string:
reject length 0 or length above 3, run the accumulation loop, then apply
the `0..=100` bound check of `DeviceBrightness::new`. -/
def deviceBrightnessFromStr (s : List Nat) : Option Nat :=
  if 3 < s.length ∨ s.length = 0 then none
  else
    match brightnessLoop 0 s with
    | none => none
    | some v => deviceBrightnessNew v

/-- Byte values of a Lean string (code points; identical to the UTF-8
bytes for the ASCII inputs that occur in this protocol). -/
def strBytes (s : String) : List Nat :=
  s.toList.map Char.toNat

/-! ## Protocol data model (`crates/proto/src/res.rs`, `res/update.rs`, `res/proj.rs`) -/

/-- One entry of an `ITEM_UPDATE` batch (`ItemUpdateValue`): `NUMBER`
(deserialized from a number or a decimal string), and the raw `VALUE`,
`STATE`, `SETPOINT` strings. -/
structure ItemUpdateValue where
  number : Nat
  value : String
  state : String
  setpoint : String
  deriving Repr, DecidableEq

/-- A minimal JSON value, enough to drive the `PROGRAMMABLE` field
deserializer (`serde_json::Value` restricted to the shapes it inspects). -/
inductive JsonLite where
  | bool (b : Bool)
  | str (s : String)
  | num (n : Int)
  | other
  deriving Repr, DecidableEq

/-- A project item (`ProjectItem`), discriminated by its `TYPE` string. -/
inductive ProjectItem where
  | scene (number : Nat) (name : String) (dimmable : Bool)
  | binaer (number : Nat) (name : String) (programmable : Bool)
  | dimmer (number : Nat) (name : String)
  | jalousie (number : Nat) (name : String)
  | none (number : Nat) (name : String)
  deriving Repr, DecidableEq

/-- The decoded `Response` variants (`enum Response`).  Bodies are kept to
the fields the client core reads. -/
inductive Response where
  | version (firmware hardware enet : String)
  | getChannelInfoAll (devices : List Nat)
  | itemValueSignIn
  | itemValue
  | projectList (projectId : String) (items : List ProjectItem)
  | itemUpdate (values : List ItemUpdateValue)
  | unknown (kind protocol : String) (values : JsonLite)
  deriving Repr, DecidableEq

/-- The kind tag of a response (`ResponseKind`). -/
inductive ResponseKind where
  | version
  | getChannelInfoAll
  | itemValueSignIn
  | itemValue
  | projectList
  | itemUpdate
  | unknown
  deriving Repr, DecidableEq

/-- `Response::kind`. -/
def Response.kind : Response → ResponseKind
  | .version .. => .version
  | .getChannelInfoAll .. => .getChannelInfoAll
  | .itemValueSignIn => .itemValueSignIn
  | .itemValue => .itemValue
  | .projectList .. => .projectList
  | .itemUpdate .. => .itemUpdate
  | .unknown .. => .unknown

/-- `ProgrammableVisitor` (`res/proj.rs`): accepts a JSON boolean, or the
exact strings `true` / `TRUE` / `false` / `FALSE`; everything else is an
error (`none`). -/
def programmableVisitor : JsonLite → Option Bool
  | .bool b => some b
  | .str s =>
    if s = "false" ∨ s = "FALSE" then some false
    else if s = "true" ∨ s = "TRUE" then some true
    else Option.none
  | _ => Option.none

/-- The `PROGRAMMABLE` field of a `Binaer` item: absent defaults to `true`
(`serde(default = "get_true")`), present goes through the visitor. -/
def parseProgrammable : Option JsonLite → Option Bool
  | Option.none => some true
  | some j => programmableVisitor j

/-! ## Device model (`crates/client/src/dev.rs`) -/

/-- `DeviceKind`. -/
inductive DeviceKind where
  | binary
  | dimmer
  | blinds
  deriving Repr, DecidableEq

/-- `DeviceState`. -/
inductive DeviceState where
  | off
  | on
  | unknown
  deriving Repr, DecidableEq

/-- `FromStr for DeviceState`. -/
def deviceStateFromStr (s : String) : Option DeviceState :=
  if s = "ON" then some .on
  else if s = "OFF" then some .off
  else if s = "UNKNOWN" ∨ s = "UNDEFINED" then some .unknown
  else Option.none

/-- `DeviceValue`; the `on` payload is the brightness value of the
`DeviceBrightness` newtype. -/
inductive DeviceValue where
  | undefined
  | off
  | on (brightness : Nat)
  | allOff
  | allOn
  deriving Repr, DecidableEq

/-- `impl PartialOrd for DeviceValue`, arm by arm.  `compare` on the
brightness payloads embeds `DeviceBrightness`'s derived `Ord` (`u8`
comparison). -/
def DeviceValue.partialCmp : DeviceValue → DeviceValue → Option Ordering
  | .undefined, .undefined => some .eq
  | .undefined, _ => Option.none
  | _, .undefined => Option.none
  | .off, .off => some .eq
  | .off, .on _ => some .lt
  | .off, .allOff => Option.none
  | .off, .allOn => Option.none
  | .on _, .off => some .gt
  | .on l, .on r => some (compare l r)
  | .on _, .allOff => Option.none
  | .on _, .allOn => Option.none
  | .allOff, .off => Option.none
  | .allOff, .on _ => Option.none
  | .allOff, .allOff => some .eq
  | .allOff, .allOn => some .lt
  | .allOn, .off => Option.none
  | .allOn, .on _ => Option.none
  | .allOn, .allOff => some .gt
  | .allOn, .allOn => some .eq

/-- `x` is below-or-equal `y` in the `DeviceValue` partial order. -/
def DeviceValue.pcLE (x y : DeviceValue) : Prop :=
  partialCmp x y = some .lt ∨ partialCmp x y = some .eq

/-- `DeviceDesc`. -/
structure DeviceDesc where
  name : String
  number : Nat
  kind : DeviceKind
  deriving Repr, DecidableEq

/-- `TryFrom<ProjectItem> for DeviceDesc`: programmable `Binaer` becomes
a Binary device, any `Dimmer` a Dimmer, any `Jalousie` a Blinds; other
items are rejected. -/
def DeviceDesc.tryFrom : ProjectItem → Option DeviceDesc
  | .binaer n name true => some ⟨name, n, .binary⟩
  | .dimmer n name => some ⟨name, n, .dimmer⟩
  | .jalousie n name => some ⟨name, n, .blinds⟩
  | _ => Option.none

/-- The two variants of `DeviceWriter` (`enum DeviceWriter` has only
`Binary` and `Dimmer`; no writer exists for blinds). -/
inductive WriterKind where
  | binary
  | dimmer
  deriving Repr, DecidableEq

/-- The writer half of an inventory entry.  `index` is the channel index
passed at construction; `number` and `name` come from the descriptor.
The observable streams are embedded as the list of values written so far
(`stateLog`, `brightnessLog`); a binary writer never touches
`brightnessLog` (it has no brightness stream). -/
structure WriterState where
  index : Nat
  number : Nat
  name : String
  kind : WriterKind
  stateLog : List DeviceState
  brightnessLog : List Nat
  deriving Repr, DecidableEq

/-- The reader half of an inventory entry (`enum Device`, public surface:
`name`, `number`, `kind`). -/
structure DeviceHandle where
  number : Nat
  name : String
  kind : DeviceKind
  deriving Repr, DecidableEq

/-- `Device::new(desc, index)`.  The `DeviceKind::Blinds` arm of the
source is `todo!()`, which panics; the embedding returns `none` there. -/
def deviceNew (desc : DeviceDesc) (index : Nat) : Option (WriterState × DeviceHandle) :=
  match desc.kind with
  | .binary => some (⟨index, desc.number, desc.name, .binary, [], []⟩,
                     ⟨desc.number, desc.name, .binary⟩)
  | .dimmer => some (⟨index, desc.number, desc.name, .dimmer, [], []⟩,
                     ⟨desc.number, desc.name, .dimmer⟩)
  | .blinds => Option.none

/-! ## Inventory construction (`crates/client/src/lib.rs`, `EnetClient::new`) -/

/-- The inventory pipeline of `EnetClient::new`: enumerate the project
items, keep those whose channel-type entry equals 1, keep those that map
to a `DeviceDesc`, then build each device.  A panic inside the build step
(the blinds `todo!()`) aborts the whole construction: `none`. -/
def buildInventory (items : List ProjectItem) (channelTypes : List Nat) :
    Option (List (WriterState × DeviceHandle)) :=
  (((items.enum.filter fun p => channelTypes.get? p.1 = some 1).filterMap
      fun p => (DeviceDesc.tryFrom p.2).map fun d => (p.1, d)).mapM
      fun p => deviceNew p.2 p.1)

/-- `EnetClient::device(number)`: linear search of the retained devices by
the descriptor's own `NUMBER` field. -/
def deviceLookup (ds : List DeviceHandle) (n : Nat) : Option DeviceHandle :=
  ds.find? fun d => d.number = n

/-! ## Command task (`crates/client/src/cmd.rs`) -/

/-- The expected-response kind held by a `ResponseListener` variant. -/
inductive ListenerKind where
  | version
  | getChannelInfoAll
  | getProject
  | itemValue
  deriving Repr, DecidableEq

/-- A pending waiter: the expected kind and whether the requesting caller
still holds the receiving end of the oneshot channel. -/
structure Listener where
  kind : ListenerKind
  alive : Bool
  deriving Repr, DecidableEq

/-- Does `ResponseListener::accept`'s `try_into` succeed, i.e. is the
response of the kind the listener awaits? -/
def responseMatches : ListenerKind → Response → Bool
  | .version, .version .. => true
  | .getChannelInfoAll, .getChannelInfoAll .. => true
  | .getProject, .projectList .. => true
  | .itemValue, .itemValue => true
  | _, _ => false

/-- `RecvError` (`crates/client/src/con.rs`): EOF at a frame boundary,
a decoder (JSON) failure, or an IO failure surfaced through the framed
reader. -/
inductive RecvError where
  | closed
  | decoderError
  | ioError
  deriving Repr, DecidableEq

/-- `CommandError` as delivered to a waiter. -/
inductive CommandError where
  | sendError
  | recvError
  | connectionClosed
  | noResponse
  | wrongResponse (raw : Response)
  deriving Repr, DecidableEq

/-- State of `CommandActor`: whether `conn` is `Some`, and the single
`response_listener` slot (at most one waiter exists at any moment). -/
structure CmdState where
  connected : Bool
  listener : Option Listener
  deriving Repr, DecidableEq

/-- What one actor step delivered to a waiter, if anything. -/
inductive WaiterEvent where
  | fulfilled (r : Response)
  | failed (e : CommandError)
  deriving Repr, DecidableEq

/-- Observable outcome of one actor step: `exit` is true when the handler
returns `Err(())`, which makes `run`'s loop return and the task
terminate; `waiter` is the completion delivered to a waiter's oneshot
(nothing is delivered when the caller dropped the receiver). -/
structure CmdStepRes where
  exit : Bool
  waiter : Option WaiterEvent
  deriving Repr, DecidableEq

/-- `CommandActor::handle_enet`.  On a recv error: fail any pending
waiter with `ConnectionClosed` and return `Err(())` (the task exits).
On a response with no waiter: log and drop.  With a waiter: deliver the
body if the kind matches, otherwise fail the waiter with
`WrongResponse(raw)`; in every case the waiter slot is left empty. -/
def handleEnet (st : CmdState) (msg : Except RecvError Response) : CmdState × CmdStepRes :=
  match msg with
  | .error _ =>
    match st.listener with
    | some l =>
      ({ st with listener := Option.none },
       ⟨true, if l.alive then some (.failed .connectionClosed) else Option.none⟩)
    | Option.none => (st, ⟨true, Option.none⟩)
  | .ok r =>
    match st.listener with
    | Option.none => (st, ⟨false, Option.none⟩)
    | some l =>
      if responseMatches l.kind r then
        ({ st with listener := Option.none },
         ⟨false, if l.alive then some (.fulfilled r) else Option.none⟩)
      else
        ({ st with listener := Option.none },
         ⟨false, if l.alive then some (.failed (.wrongResponse r)) else Option.none⟩)

/-- `CommandActor::handle_cmd`.  `msg = none` models a closed mailbox
(task exits).  Otherwise the new waiter is installed, a connection is
opened lazily (`connectOk` is the outcome of `Connection::new`; on
failure the handler returns `Err(())` and the task exits with the waiter
still installed), and the request is sent (`sendOk` is the outcome of
`conn.send`; on failure the waiter is failed with the underlying send
error and the task continues). -/
def handleCmd (st : CmdState) (msg : Option Listener) (connectOk sendOk : Bool) :
    CmdState × CmdStepRes :=
  match msg with
  | Option.none => (st, ⟨true, Option.none⟩)
  | some l =>
    if st.connected then
      if sendOk then ({ st with listener := some l }, ⟨false, Option.none⟩)
      else ({ st with listener := Option.none },
            ⟨false, if l.alive then some (.failed .sendError) else Option.none⟩)
    else if connectOk then
      if sendOk then (⟨true, some l⟩, ⟨false, Option.none⟩)
      else (⟨true, Option.none⟩,
            ⟨false, if l.alive then some (.failed .sendError) else Option.none⟩)
    else
      ({ st with listener := some l }, ⟨true, Option.none⟩)

/-! ## Event task (`crates/client/src/evt.rs`) -/

/-- `EventActor::new` keys the writer map by `DeviceWriter::index()`,
the channel index (a `BTreeMap<u32, DeviceWriter>`; embedded as the
association list of `(index, writer)` pairs). -/
def eventWriterMap (ws : List WriterState) : List (Nat × WriterState) :=
  ws.map fun w => (w.index, w)

/-- Apply one `ItemUpdateValue` to the writer the map returned for its
`NUMBER` field.  Binary: parse `STATE`; on success write the state
stream, on failure log and skip.  Dimmer: the same for `STATE`;
independently parse `VALUE` as a brightness, treating the exact string
`-1` as brightness zero (`DeviceBrightness::MIN`), and write the
brightness stream. -/
def applyEnetValue (w : WriterState) (v : ItemUpdateValue) : WriterState :=
  match w.kind with
  | .binary =>
    match deviceStateFromStr v.state with
    | some st => { w with stateLog := w.stateLog ++ [st] }
    | Option.none => w
  | .dimmer =>
    let w1 :=
      match deviceStateFromStr v.state with
      | some st => { w with stateLog := w.stateLog ++ [st] }
      | Option.none => w
    match deviceBrightnessFromStr (strBytes v.value) with
    | some b => { w1 with brightnessLog := w1.brightnessLog ++ [b] }
    | Option.none =>
      if v.value = "-1" then { w1 with brightnessLog := w1.brightnessLog ++ [0] }
      else w1

/-- The effect of one batch entry on one writer: the writer keyed by the
entry's `NUMBER` (its channel index) is updated, every other writer is
untouched. -/
def enetStep (v : ItemUpdateValue) (w : WriterState) : WriterState :=
  if w.index = v.number then applyEnetValue w v else w

/-- `EventActor::update_values_from_enet`: for each batch entry, look up
the writer keyed by the entry's `NUMBER`; unknown numbers are logged and
skipped.  The map update is embedded positionally: exactly the writers
whose key (channel index) equals the entry's number are touched. -/
def updateValuesFromEnet (ws : List WriterState) (values : List ItemUpdateValue) :
    List WriterState :=
  values.foldl (fun acc v => acc.map (enetStep v)) ws

/-- The effect of one synthetic `(number, state)` pair on one writer. -/
def stateStep (p : Nat × DeviceState) (w : WriterState) : WriterState :=
  if w.index = p.1 then { w with stateLog := w.stateLog ++ [p.2] } else w

/-- `EventActor::update_device_states` (the synthetic-echo path): write
each `(number, state)` pair to the state stream of the writer keyed by
`number`; binary and dimmer writers alike get only a state write, the
brightness stream is never touched. -/
def updateDeviceStates (ws : List WriterState) (values : List (Nat × DeviceState)) :
    List WriterState :=
  values.foldl (fun acc p => acc.map (stateStep p)) ws

/-- What the steady loop does to the backoff state. -/
inductive BackoffAction where
  | reset
  | next
  deriving Repr, DecidableEq

/-- Control outcome of handling one inbound recv result in the steady
loop: stay in the loop, or return `ControlFlow::Continue(next_backoff)`
so that `run` reopens the connection from step 0 after the backoff
interval. -/
inductive EvtOutcome where
  | stayInLoop
  | reconnect
  deriving Repr, DecidableEq

/-- The inbound-response arm of `EventActor::main`'s steady loop:
`ITEM_UPDATE` resets the backoff and is applied to the writers;
`ITEM_VALUE_SIGN_IN_RES` resets the backoff and continues; any other
response kind, and every recv error (`Closed`, decoder, IO), abandons the
connection and reopens from step 0 after the next backoff interval. -/
def evtHandleInbound (ws : List WriterState) (msg : Except RecvError Response) :
    List WriterState × BackoffAction × EvtOutcome :=
  match msg with
  | .error _ => (ws, .next, .reconnect)
  | .ok (.itemUpdate values) => (updateValuesFromEnet ws values, .reset, .stayInLoop)
  | .ok .itemValueSignIn => (ws, .reset, .stayInLoop)
  | .ok _ => (ws, .next, .reconnect)

/-! ## Client facade `set_values` (`crates/client/src/lib.rs`) -/

/-- `SetValue` (`crates/proto/src/req/value.rs`). -/
inductive ClickDuration where
  | short
  | long
  deriving Repr, DecidableEq

/-- `SetValue`. -/
inductive SetValue where
  | on (d : ClickDuration)
  | off (d : ClickDuration)
  | dimm (v : Nat)
  | blinds (v : Nat)
  deriving Repr, DecidableEq

/-- `ItemSetValue`. -/
structure ItemSetValue where
  number : Nat
  value : SetValue
  deriving Repr, DecidableEq

/-- The synthetic state `EnetClient::set_values` derives for one element
of the vector (the `match v.value` in `lib.rs`): `On(_)` is On, `Off(_)`
is Off, `Dimm(0)` and `Blinds(0)` are Off, any other `Dimm`/`Blinds` is
On. -/
def syntheticState : SetValue → DeviceState
  | .on _ => .on
  | .off _ => .off
  | .dimm v => if v = 0 then .off else .on
  | .blinds v => if v = 0 then .off else .on

/-- The parallel vector of `(number, state)` pairs `set_values` posts to
the event task. -/
def setValuesUpdates (values : List ItemSetValue) : List (Nat × DeviceState) :=
  values.map fun v => (v.number, syntheticState v.value)

/-- `EnetClient::set_values` after materializing the vector: the command
is issued first (`ack` is the gateway acknowledgment outcome); any error
propagates and nothing is posted to the event task; on success the
synthetic pairs are posted. -/
def setValuesEcho (ack : Except CommandError Unit) (values : List ItemSetValue) :
    Option (List (Nat × DeviceState)) :=
  match ack with
  | .error _ => Option.none
  | .ok _ => some (setValuesUpdates values)

/-! ## Helper lemmas about the writer-map folds -/

theorem foldl_map_length {α : Type} (step : α → WriterState → WriterState)
    (values : List α) :
    ∀ ws : List WriterState,
      (values.foldl (fun acc v => acc.map (step v)) ws).length = ws.length := by
  induction values with
  | nil => intro ws; rfl
  | cons v rest ih =>
    intro ws
    simpa using ih (ws.map (step v))

theorem foldl_map_getElem {α : Type} (step : α → WriterState → WriterState)
    (values : List α) :
    ∀ (ws : List WriterState) (i : Nat) (h1 : i < ws.length)
      (h2 : i < (values.foldl (fun acc v => acc.map (step v)) ws).length),
      (values.foldl (fun acc v => acc.map (step v)) ws)[i]
        = values.foldl (fun w v => step v w) (ws.get ⟨i, h1⟩) := by
  induction values with
  | nil => intro ws i h1 h2; rfl
  | cons v rest ih =>
    intro ws i h1 h2
    have h1m : i < (ws.map (step v)).length := by simpa using h1
    have hh := ih (ws.map (step v)) i h1m (by simpa [List.foldl_cons] using h2)
    simp only [List.foldl_cons] at hh ⊢
    rw [hh]
    simp [List.getElem_map]

theorem stateFoldl_eq (values : List (Nat × DeviceState)) :
    ∀ w : WriterState,
      values.foldl (fun w p => stateStep p w) w
        = { w with stateLog :=
              w.stateLog ++ (values.filter fun p => w.index = p.1).map Prod.snd } := by
  induction values with
  | nil => intro w; simp
  | cons p rest ih =>
    intro w
    rw [List.foldl_cons, ih]
    by_cases h : w.index = p.1
    · simp [stateStep, h, List.filter_cons, List.append_assoc]
    · simp [stateStep, h, List.filter_cons]

theorem updateDeviceStates_getElem (values : List (Nat × DeviceState))
    (ws : List WriterState) (i : Nat) (h1 : i < ws.length)
    (h2 : i < (updateDeviceStates ws values).length) :
    (updateDeviceStates ws values)[i]
      = { ws.get ⟨i, h1⟩ with stateLog :=
            (ws.get ⟨i, h1⟩).stateLog
              ++ (values.filter fun p => (ws.get ⟨i, h1⟩).index = p.1).map Prod.snd } := by
  have key := foldl_map_getElem stateStep values ws i h1 h2
  exact key.trans (stateFoldl_eq values (ws.get ⟨i, h1⟩))

theorem updateValuesFromEnet_getElem (values : List ItemUpdateValue)
    (ws : List WriterState) (i : Nat) (h1 : i < ws.length)
    (h2 : i < (updateValuesFromEnet ws values).length) :
    (updateValuesFromEnet ws values)[i]
      = values.foldl (fun w v => enetStep v w) (ws.get ⟨i, h1⟩) :=
  foldl_map_getElem enetStep values ws i h1 h2

theorem enetFoldl_skip (values : List ItemUpdateValue) :
    ∀ w : WriterState, (∀ v ∈ values, w.index ≠ v.number) →
      values.foldl (fun w v => enetStep v w) w = w := by
  induction values with
  | nil => intro w _; rfl
  | cons v rest ih =>
    intro w h
    have hv : w.index ≠ v.number := h v (by simp)
    simp only [List.foldl_cons, enetStep, if_neg hv]
    exact ih w fun v hv => h v (by simp [hv])

/-! ## Claim theorems -/

/-- C1: the framing round-trip / boundary-safety property fails on the
code.  The frame for the two-byte body `\x7B \x7D` is
`[123, 125, 13, 10, 13, 10]` (first conjunct).  Deliver it in two
chunks, the first ending in the lone delimiter byte `\x0D` (a proper
prefix of the delimiter): the first `decode` call returns `None` but
stores `next_index = 3`, the buffer length, because its rewind loop
counts the longest common suffix of the buffer and the delimiter (zero
for a trailing `\x0D`) instead of the longest buffer suffix that is a
proper prefix of the delimiter (one).  The second call, with the
delimiter now complete at positions 2..6, searches only from offset 3,
misses it, and returns `None` again with `next_index = 3` — the frame is
never produced, where the claim requires exactly one frame.  The last
conjunct shows the same buffer decodes fine when the cursor sits at the
position the specification's rewind rule (`len - k`) would give. -/
theorem framing_boundary_miss :
    encode [123, 125] [] = [123, 125, 13, 10, 13, 10] ∧
    decodeRaw 0 [123, 125, 13] = ⟨Option.none, [123, 125, 13], 3⟩ ∧
    decodeRaw 3 [123, 125, 13, 10, 13, 10] = ⟨Option.none, [123, 125, 13, 10, 13, 10], 3⟩ ∧
    decodeRaw 2 [123, 125, 13, 10, 13, 10] = ⟨some [123, 125], [], 0⟩ := by
  refine ⟨rfl, by decide, by decide, by decide⟩

/-- C2: brightness parsing does not fail on every 3-digit string above
100.  The accumulator is a `u8`, so for `"300"` the value wraps to
`300 mod 256 = 44`, which passes the `≤ 100` check: the parse *succeeds*
with 44 (in a release build; a debug build panics on the overflow),
while the claim requires failure.  The remaining conjuncts confirm the
claim's other listed cases behave as stated. -/
theorem brightness_overflow_wrap :
    deviceBrightnessFromStr (strBytes "300") = some 44 ∧
    deviceBrightnessFromStr (strBytes "0") = some 0 ∧
    deviceBrightnessFromStr (strBytes "100") = some 100 ∧
    deviceBrightnessFromStr (strBytes "101") = Option.none ∧
    deviceBrightnessFromStr (strBytes "") = Option.none ∧
    deviceBrightnessFromStr (strBytes "1000") = Option.none ∧
    deviceBrightnessFromStr (strBytes "0a") = Option.none := by
  refine ⟨by decide, by decide, by decide, by decide, by decide, by decide, by decide⟩

/-- C4: inventory construction does not accept a Jalousie.  A project
with a single `Jalousie` item on a channel whose type entry is 1 is
retained by the filters (first conjunct: it maps to a Blinds
descriptor), but `Device::new` hits the `todo!()` in its
`DeviceKind::Blinds` arm and panics (second conjunct: the embedded
constructor has no value there), so `EnetClient::new`'s inventory
construction aborts instead of succeeding (third conjunct).  The claim
says construction must succeed with the Blinds device accepted. -/
theorem blinds_inventory_panics :
    DeviceDesc.tryFrom (ProjectItem.jalousie 5 "j") = some ⟨"j", 5, .blinds⟩ ∧
    deviceNew ⟨"j", 5, .blinds⟩ 0 = Option.none ∧
    buildInventory [ProjectItem.jalousie 5 "j"] [1] = Option.none := by
  refine ⟨rfl, rfl, by decide⟩

/-- C9 counterexample: the claim says the `PROGRAMMABLE` string forms are
compared case-insensitively, so `"True"` would be accepted; the visitor
accepts only the exact strings `"true"`, `"TRUE"`, `"false"`, `"FALSE"`
and rejects `"True"`. -/
theorem programmable_mixed_case_rejected :
    parseProgrammable (some (.str "True")) = Option.none := by
  decide

/-- C9 (amended): when deserializing a Binaer project item the
`PROGRAMMABLE` field defaults to true when absent and accepts either a
JSON boolean or one of the four exact strings `"true"`, `"TRUE"`,
`"false"`, `"FALSE"` (all-lowercase or all-uppercase only — mixed
casings such as `"True"` or `"FaLsE"` are rejected); all other values
are rejected. -/
theorem programmable_parse_exact (j : JsonLite) (b : Bool) :
    parseProgrammable Option.none = some true ∧
    parseProgrammable (some (.bool b)) = some b ∧
    ((parseProgrammable (some j)).isSome ↔
      (∃ c, j = .bool c) ∨ j = .str "true" ∨ j = .str "TRUE"
        ∨ j = .str "false" ∨ j = .str "FALSE") ∧
    parseProgrammable (some (.str "true")) = some true ∧
    parseProgrammable (some (.str "TRUE")) = some true ∧
    parseProgrammable (some (.str "false")) = some false ∧
    parseProgrammable (some (.str "FALSE")) = some false ∧
    parseProgrammable (some (.str "FaLsE")) = Option.none := by
  refine ⟨rfl, rfl, ?_, by decide, by decide, by decide, by decide, by decide⟩
  cases j with
  | bool c => simp [parseProgrammable, programmableVisitor]
  | str s =>
    by_cases hf : s = "false"
    · simp [parseProgrammable, programmableVisitor, hf]
    · by_cases hF : s = "FALSE"
      · simp [parseProgrammable, programmableVisitor, hF]
      · by_cases ht : s = "true"
        · simp [parseProgrammable, programmableVisitor, ht]
        · by_cases hT : s = "TRUE"
          · simp [parseProgrammable, programmableVisitor, hT]
          · simp [parseProgrammable, programmableVisitor, hf, hF, ht, hT]
  | num n => simp [parseProgrammable, programmableVisitor]
  | other => simp [parseProgrammable, programmableVisitor]

/-- C3 counterexample: the claim says that after a `recv()` failure the
task transitions to the Disconnected state and remains alive so that the
next send lazily reopens the connection.  In the source, `handle_enet`
returns `Err(())` on a recv error, which makes `run`'s loop `return`:
at a concrete connected state with a pending waiter, the step reports
`exit = true` — the task terminates instead of surviving in a
disconnected state. -/
theorem cmd_recv_failure_exits :
    (handleEnet ⟨true, some ⟨.version, true⟩⟩ (.error .closed)).2
      = ⟨true, some (.failed .connectionClosed)⟩ := by
  decide

/-- C3 (amended): if `recv()` on the command socket fails, any pending
waiter is failed with *ConnectionClosed* and the task *exits* (its run
loop returns; it does not remain alive in a Disconnected state — a later
send fails with *ConnectionClosed* through the closed mailbox).  If
`send()` fails, the pending waiter is failed with the underlying send
error and the task remains (no exit) and serves the next request. -/
theorem cmd_failure_model (st : CmdState) (k : ListenerKind) (e : RecvError) (cOk : Bool) :
    (st.listener = some ⟨k, true⟩ →
      handleEnet st (.error e)
        = ({ st with listener := Option.none },
           ⟨true, some (.failed .connectionClosed)⟩)) ∧
    (st.connected = true →
      handleCmd st (some ⟨k, true⟩) cOk false
        = ({ st with listener := Option.none },
           ⟨false, some (.failed .sendError)⟩)) := by
  constructor
  · intro h
    cases e <;> simp [handleEnet, h]
  · intro h
    simp [handleCmd, h]

/-- Witness for C3's amended theorem at a concrete connected state with
a pending version waiter. -/
theorem cmd_failure_model_witness :
    (handleEnet ⟨true, some ⟨.getProject, true⟩⟩ (.error .decoderError)
      = (⟨true, Option.none⟩, ⟨true, some (.failed .connectionClosed)⟩)) ∧
    (handleCmd ⟨true, Option.none⟩ (some ⟨.getProject, true⟩) true false
      = (⟨true, Option.none⟩, ⟨false, some (.failed .sendError)⟩)) := by
  refine ⟨?_, ?_⟩
  · exact (cmd_failure_model ⟨true, some ⟨.getProject, true⟩⟩ .getProject
      .decoderError true).1 rfl
  · exact (cmd_failure_model ⟨true, Option.none⟩ .getProject .decoderError true).2 rfl

/-- C5: correlation on the command connection.  The waiter slot is a
single `Option` (at most one response is expected at any moment); a
received response is steered to that waiter: matching kind fulfils it,
a mismatching kind fails it with `WrongResponse` carrying the raw
response, and in both cases the slot is left empty; a response arriving
with no waiter is dropped with no state change. -/
theorem cmd_correlation (st : CmdState) (r : Response) (k : ListenerKind) :
    (st.listener = some ⟨k, true⟩ → responseMatches k r = true →
      handleEnet st (.ok r)
        = ({ st with listener := Option.none }, ⟨false, some (.fulfilled r)⟩)) ∧
    (st.listener = some ⟨k, true⟩ → responseMatches k r = false →
      handleEnet st (.ok r)
        = ({ st with listener := Option.none },
           ⟨false, some (.failed (.wrongResponse r))⟩)) ∧
    (st.listener = Option.none → handleEnet st (.ok r) = (st, ⟨false, Option.none⟩)) := by
  refine ⟨?_, ?_, ?_⟩
  · intro h hm
    simp [handleEnet, h, hm]
  · intro h hm
    simp [handleEnet, h, hm]
  · intro h
    simp [handleEnet, h]

/-- Witness for C5 at concrete states: a matching `VERSION_RES`, a
mismatching `ITEM_UPDATE` while awaiting a version, and a response with
no waiter installed. -/
theorem cmd_correlation_witness :
    (handleEnet ⟨true, some ⟨.version, true⟩⟩ (.ok (.version "2.6" "1.0" "0.03"))
      = (⟨true, Option.none⟩, ⟨false, some (.fulfilled (.version "2.6" "1.0" "0.03"))⟩)) ∧
    (handleEnet ⟨true, some ⟨.version, true⟩⟩ (.ok (.itemUpdate []))
      = (⟨true, Option.none⟩,
         ⟨false, some (.failed (.wrongResponse (.itemUpdate [])))⟩)) ∧
    (handleEnet ⟨true, Option.none⟩ (.ok (.itemUpdate []))
      = (⟨true, Option.none⟩, ⟨false, Option.none⟩)) := by
  refine ⟨?_, ?_, ?_⟩
  · exact (cmd_correlation ⟨true, some ⟨.version, true⟩⟩
      (.version "2.6" "1.0" "0.03") .version).1 rfl rfl
  · exact (cmd_correlation ⟨true, some ⟨.version, true⟩⟩
      (.itemUpdate []) .version).2.1 rfl rfl
  · exact (cmd_correlation ⟨true, Option.none⟩ (.itemUpdate []) .version).2.2 rfl

/-- C6: the steady loop's inbound dispatch.  `ITEM_UPDATE` resets the
backoff and applies the batch to the inventory writers;
`ITEM_VALUE_SIGN_IN_RES` resets the backoff and continues; every other
response kind abandons the connection and restarts from step 0; every
recv error (`Closed`, decoder, IO) restarts from step 0 after the next
backoff interval. -/
theorem evt_inbound_dispatch (ws : List WriterState) :
    (∀ values, evtHandleInbound ws (.ok (.itemUpdate values))
      = (updateValuesFromEnet ws values, .reset, .stayInLoop)) ∧
    (evtHandleInbound ws (.ok .itemValueSignIn) = (ws, .reset, .stayInLoop)) ∧
    (∀ r : Response, r.kind ≠ .itemUpdate → r.kind ≠ .itemValueSignIn →
      evtHandleInbound ws (.ok r) = (ws, .next, .reconnect)) ∧
    (∀ e : RecvError, evtHandleInbound ws (.error e) = (ws, .next, .reconnect)) := by
  refine ⟨fun values => rfl, rfl, ?_, fun e => rfl⟩
  intro r h1 h2
  cases r <;> simp [Response.kind] at h1 h2 ⊢ <;> rfl

/-- Witness for C6 at a concrete writer list: one update batch applied,
and a stray `VERSION_RES` triggering a reconnect. -/
theorem evt_inbound_dispatch_witness :
    (evtHandleInbound [] (.ok (.itemUpdate [⟨3, "50", "ON", "255"⟩]))
      = (updateValuesFromEnet [] [⟨3, "50", "ON", "255"⟩], .reset, .stayInLoop)) ∧
    (evtHandleInbound [] (.ok (.version "2.6" "1.0" "0.03")) = ([], .next, .reconnect)) := by
  constructor
  · exact (evt_inbound_dispatch []).1 [⟨3, "50", "ON", "255"⟩]
  · exact (evt_inbound_dispatch []).2.2.1 (.version "2.6" "1.0" "0.03")
      (by decide) (by decide)

/-- C7: the synthetic echo of `set_values`.  One `(number, state)` pair
is derived per input element (`On(_)` is On, `Off(_)` is Off, `Dimm(0)`
and `Blinds(0)` are Off, any other `Dimm`/`Blinds` is On); nothing is
posted when the command fails, and after the acknowledgment the pairs
are posted to the event task.  Applying them writes only state streams:
each writer's state stream gains exactly the states addressed to its
channel index, every brightness stream is unchanged, and a writer whose
index is not named in the pairs is entirely unchanged. -/
theorem set_values_echo_states (values : List ItemSetValue) (ws : List WriterState)
    (d : ClickDuration) (k : Nat) :
    syntheticState (.on d) = .on ∧
    syntheticState (.off d) = .off ∧
    syntheticState (.dimm 0) = .off ∧
    (k ≠ 0 → syntheticState (.dimm k) = .on) ∧
    syntheticState (.blinds 0) = .off ∧
    (k ≠ 0 → syntheticState (.blinds k) = .on) ∧
    setValuesEcho (.ok ()) values
      = some (values.map fun v => (v.number, syntheticState v.value)) ∧
    (∀ e, setValuesEcho (.error e) values = Option.none) ∧
    (updateDeviceStates ws (setValuesUpdates values)).length = ws.length ∧
    (∀ i (h1 : i < ws.length)
       (h2 : i < (updateDeviceStates ws (setValuesUpdates values)).length),
      (updateDeviceStates ws (setValuesUpdates values))[i]
        = { ws.get ⟨i, h1⟩ with stateLog :=
              (ws.get ⟨i, h1⟩).stateLog
                ++ ((setValuesUpdates values).filter
                      fun p => (ws.get ⟨i, h1⟩).index = p.1).map Prod.snd }) ∧
    (∀ i (h1 : i < ws.length)
       (h2 : i < (updateDeviceStates ws (setValuesUpdates values)).length),
      ((updateDeviceStates ws (setValuesUpdates values))[i]).brightnessLog
        = (ws.get ⟨i, h1⟩).brightnessLog) ∧
    (∀ i (h1 : i < ws.length)
       (h2 : i < (updateDeviceStates ws (setValuesUpdates values)).length),
      (ws.get ⟨i, h1⟩).index ∉ (setValuesUpdates values).map Prod.fst →
        (updateDeviceStates ws (setValuesUpdates values))[i] = ws.get ⟨i, h1⟩) := by
  refine ⟨rfl, rfl, rfl, ?_, rfl, ?_, rfl, fun e => rfl, ?_, ?_, ?_, ?_⟩
  · intro h
    simp [syntheticState, h]
  · intro h
    simp [syntheticState, h]
  · exact foldl_map_length stateStep (setValuesUpdates values) ws
  · intro i h1 h2
    exact updateDeviceStates_getElem (setValuesUpdates values) ws i h1 h2
  · intro i h1 h2
    rw [updateDeviceStates_getElem (setValuesUpdates values) ws i h1 h2]
  · intro i h1 h2 hmem
    rw [updateDeviceStates_getElem (setValuesUpdates values) ws i h1 h2]
    have hnil : ((setValuesUpdates values).filter
        fun p => (ws.get ⟨i, h1⟩).index = p.1) = [] := by
      rw [List.filter_eq_nil_iff]
      intro p hp hcon
      exact hmem (List.mem_map.mpr ⟨p, hp, (of_decide_eq_true hcon).symm⟩)
    simp only [List.get_eq_getElem] at hnil
    simp [hnil]

/-- Witness for C7: a single `Dimm(0)` command addressed to item number
3 maps to Off, and applying the echo to a writer map whose only writer
is keyed by channel index 0 leaves that writer (state and brightness
streams alike) unchanged. -/
theorem set_values_echo_states_witness :
    syntheticState (SetValue.dimm 5) = DeviceState.on ∧
    setValuesEcho (.ok ()) [⟨3, SetValue.dimm 0⟩] = some [(3, DeviceState.off)] ∧
    updateDeviceStates [⟨0, 3, "d", .dimmer, [], [7]⟩]
        (setValuesUpdates [⟨3, SetValue.dimm 0⟩])
      = [⟨0, 3, "d", .dimmer, [], [7]⟩] := by
  have h := set_values_echo_states [⟨3, SetValue.dimm 0⟩]
    [⟨0, 3, "d", .dimmer, [], [7]⟩] ClickDuration.short 5
  refine ⟨h.2.2.2.1 (by decide), by simpa using h.2.2.2.2.2.2.1, ?_⟩
  apply List.ext_get (by simpa using h.2.2.2.2.2.2.2.2.1)
  intro i hi1 hi2
  have hi0 : i = 0 := by
    simp at hi2
    omega
  subst hi0
  exact h.2.2.2.2.2.2.2.2.2.2.2 0 (by decide) hi1 (by decide)

/-- C8: the `DeviceValue` partial order.  For brightnesses `j ≤ k`,
`Off < On(j) ≤ On(k)`; `AllOff < AllOn`; `Undefined` compares equal to
itself and to nothing else; every `Off`/`On(_)` is incomparable to every
`AllOff`/`AllOn`; and the order is reflexive, antisymmetric and
transitive where defined. -/
theorem device_value_partial_order (j k b : Nat) (v : DeviceValue) :
    (j ≤ k → DeviceValue.partialCmp .off (.on j) = some .lt
        ∧ DeviceValue.pcLE (.on j) (.on k)) ∧
    DeviceValue.partialCmp .allOff .allOn = some .lt ∧
    DeviceValue.partialCmp .undefined .undefined = some .eq ∧
    (v ≠ .undefined → DeviceValue.partialCmp .undefined v = Option.none
        ∧ DeviceValue.partialCmp v .undefined = Option.none) ∧
    (DeviceValue.partialCmp .off .allOff = Option.none ∧
     DeviceValue.partialCmp .off .allOn = Option.none ∧
     DeviceValue.partialCmp (.on b) .allOff = Option.none ∧
     DeviceValue.partialCmp (.on b) .allOn = Option.none ∧
     DeviceValue.partialCmp .allOff .off = Option.none ∧
     DeviceValue.partialCmp .allOff (.on b) = Option.none ∧
     DeviceValue.partialCmp .allOn .off = Option.none ∧
     DeviceValue.partialCmp .allOn (.on b) = Option.none) ∧
    (∀ x, DeviceValue.partialCmp x x = some .eq) ∧
    (∀ x y, DeviceValue.pcLE x y → DeviceValue.pcLE y x → x = y) ∧
    (∀ x y z, DeviceValue.pcLE x y → DeviceValue.pcLE y z → DeviceValue.pcLE x z) := by
  refine ⟨?_, rfl, rfl, ?_, ⟨rfl, rfl, rfl, rfl, rfl, rfl, rfl, rfl⟩, ?_, ?_, ?_⟩
  · intro h
    refine ⟨rfl, ?_⟩
    rcases Nat.lt_or_ge j k with hlt | hge
    · exact Or.inl (by simp [DeviceValue.partialCmp, Nat.compare_eq_lt, hlt])
    · have : j = k := Nat.le_antisymm h hge
      exact Or.inr (by simp [DeviceValue.partialCmp, Nat.compare_eq_eq, this])
  · intro h
    cases v <;> simp_all [DeviceValue.partialCmp]
  · intro x
    cases x <;> simp [DeviceValue.partialCmp, Nat.compare_eq_eq]
  · intro x y h1 h2
    cases x <;> cases y <;>
      (simp_all [DeviceValue.pcLE, DeviceValue.partialCmp,
        Nat.compare_eq_lt, Nat.compare_eq_eq];
       try omega)
  · intro x y z h1 h2
    cases x <;> cases y <;> cases z <;>
      (simp_all [DeviceValue.pcLE, DeviceValue.partialCmp,
        Nat.compare_eq_lt, Nat.compare_eq_eq];
       try omega)

/-- Witness for C8 at concrete brightnesses: `Off < On(3) ≤ On(7)` and
`On(2)` is incomparable with `Undefined`. -/
theorem device_value_partial_order_witness :
    (3 ≤ 7 ∧ DeviceValue.partialCmp .off (.on 3) = some .lt
        ∧ DeviceValue.pcLE (.on 3) (.on 7)) ∧
    (DeviceValue.on 2 ≠ .undefined
        ∧ DeviceValue.partialCmp .undefined (.on 2) = Option.none) := by
  have h := device_value_partial_order 3 7 2 (.on 2)
  exact ⟨⟨by decide, h.1 (by decide)⟩, by decide, (h.2.2.2.1 (by decide)).1⟩

/-- C10: the event task's writer map is keyed by the channel index
(first conjunct: the keys of the map built by `EventActor::new` are the
writers' `index` fields), while an `ITEM_UPDATE` entry is looked up by
its `NUMBER` field in that index-keyed map and `EnetClient::device(n)`
searches by the descriptor's own `NUMBER` field (last conjunct).  Hence
when no writer occupies channel index `u.number`, the update is dropped
with every writer unchanged (second conjunct), and any writer whose
index differs from `u.number` — in particular an entry whose item number
differs from its channel index, addressed by that item number — is
unchanged (third conjunct): the update goes to whichever entry occupies
that index, if any. -/
theorem update_lookup_by_index (ws : List WriterState) (ds : List DeviceHandle)
    (u : ItemUpdateValue) (n : Nat) :
    ((eventWriterMap ws).map Prod.fst = ws.map fun w => w.index) ∧
    ((∀ w ∈ ws, w.index ≠ u.number) → updateValuesFromEnet ws [u] = ws) ∧
    (∀ i (h1 : i < ws.length) (h2 : i < (updateValuesFromEnet ws [u]).length),
      (ws.get ⟨i, h1⟩).index ≠ u.number →
        (updateValuesFromEnet ws [u])[i] = ws.get ⟨i, h1⟩) ∧
    (∀ d, deviceLookup ds n = some d → d.number = n) := by
  refine ⟨?_, ?_, ?_, ?_⟩
  · simp [eventWriterMap]
  · intro h
    apply List.ext_getElem
      (show (updateValuesFromEnet ws [u]).length = ws.length from
        foldl_map_length enetStep [u] ws)
    intro i hi1 hi2
    rw [updateValuesFromEnet_getElem [u] ws i hi2 hi1]
    exact enetFoldl_skip [u] _ fun v hv => by
      simp at hv
      subst hv
      exact h _ (List.get_mem ws i hi2)
  · intro i h1 h2 hne
    rw [updateValuesFromEnet_getElem [u] ws i h1 h2]
    exact enetFoldl_skip [u] _ fun v hv => by
      simp at hv
      subst hv
      exact hne
  · intro d hd
    have := List.find?_some hd
    exact of_decide_eq_true this

/-- Witness for C10: a single writer whose item number is 5 but whose
channel index is 0; the update addressed to number 5 finds no key and
is dropped, while `device(5)` does find the device by its number. -/
theorem update_lookup_by_index_witness :
    updateValuesFromEnet [⟨0, 5, "a", .binary, [], []⟩] [⟨5, "1", "ON", "255"⟩]
      = [⟨0, 5, "a", .binary, [], []⟩] ∧
    ((⟨5, "a", .binary⟩ : DeviceHandle).number = 5 ∧
      deviceLookup [⟨5, "a", .binary⟩] 5 = some ⟨5, "a", .binary⟩) := by
  have h := update_lookup_by_index [⟨0, 5, "a", .binary, [], []⟩]
    [⟨5, "a", .binary⟩] ⟨5, "1", "ON", "255"⟩ 5
  refine ⟨h.2.1 ?_, h.2.2.2 ⟨5, "a", .binary⟩ (by decide), by decide⟩
  intro w hw
  simp at hw
  subst hw
  decide

end Enet
